import Mathlib

/-!
# Verification of the conversation store and agent-call handling

Shallow embedding of the core logic of `src/src/pages/Home.tsx`
(the conversation/session state machine and the outbound agent-call
handling).  The four page variants in the repository share this logic
verbatim; `Home.tsx` is the representative.

Modelling decisions:
* React state (`conversations`, `activeConversationId`, `isLoading`) is an
  explicit record `HomeState`; each event handler is a pure transition.
* `Date.now().toString()` and `new Date().toISOString()` are modelled as
  explicit string inputs (the clock is an input of the transition), since
  the source consults the ambient clock.
* The `async` function `handleSendMessage` is split at its single `await`
  point: `sendPhase1` is the synchronous prefix (guard, optional
  conversation creation, user-message append, `setIsLoading(true)`), and
  `sendPhase2` is the continuation that runs when `callAIAgent` completes
  (agent/error message append, `finally setIsLoading(false)`).  The
  outcome of the awaited call is the explicit input `CallOutcome`.
* `JSON.stringify` / `JSON.parse` are modelled at the JSON-tree level by
  an explicit `Json` inductive with an encoder and a decoder; numbers are
  `Rat` (the JSON value space, exact for the round trip).
-/

/-- The `role` field of a message: `'user' | 'agent'`. -/
inductive Role where
  | user
  | agent
deriving DecidableEq, Repr

/-- `interface AgentResult` from `Home.tsx`: the structured payload of a
successful agent reply.  `confidence: number` is modelled as `Rat`. -/
structure AgentResult where
  answer : String
  sources : List String
  related_topics : List String
  confidence : Rat
deriving DecidableEq, Repr

/-- `interface AgentMetadata` from `Home.tsx`. -/
structure AgentMetadata where
  agent_name : String
  timestamp : String
deriving DecidableEq, Repr

/-- `interface AgentResponse` from `Home.tsx`: the remote payload.  The
source types `status` as `'success' | 'error'` but only ever compares it
against the literal `"success"`, so it is modelled as a string. -/
structure AgentResponse where
  status : String
  result : AgentResult
  metadata : AgentMetadata
deriving DecidableEq, Repr

/-- `interface Message` from `Home.tsx`.  `response?:` is an optional
field, hence `Option`. -/
structure Message where
  id : String
  role : Role
  content : String
  timestamp : String
  response : Option AgentResult
deriving DecidableEq, Repr

/-- `interface Conversation` from `Home.tsx`. -/
structure Conversation where
  id : String
  title : String
  messages : List Message
  timestamp : String
deriving DecidableEq, Repr

/-- The React state of `Home` that the core transitions read and write:
`conversations`, `activeConversationId` (`string | null`), `isLoading`. -/
structure HomeState where
  conversations : List Conversation
  activeConversationId : Option String
  isLoading : Bool
deriving DecidableEq, Repr

/-- The value returned by `callAIAgent` as used in `Home.tsx`
(`result.success`, `result.response.status`, `result.response.result`,
`result.error`): a transport-success flag, the decoded payload, and an
optional error text. -/
structure CallAgentResult where
  success : Bool
  response : AgentResponse
  error : Option String
deriving DecidableEq, Repr

/-- Outcome of `await callAIAgent(...)`: either the call returned a
`CallAgentResult`, or it threw (caught by the surrounding `try`). -/
inductive CallOutcome where
  | returned (r : CallAgentResult)
  | threw
deriving DecidableEq, Repr

/-- The clock/id values drawn inside one `handleSendMessage` run:
`Date.now().toString()` and `new Date().toISOString()` at conversation
creation, at the user message, and at the reply message (the reply id is
`(Date.now() + 1).toString()` in the source; it is a fresh input here). -/
structure SendIds where
  convId : String
  convTs : String
  userMsgId : String
  userMsgTs : String
  replyMsgId : String
  replyMsgTs : String
deriving DecidableEq, Repr

/-- JavaScript `String.prototype.trim`: drop leading and trailing
whitespace.  Defined structurally on the character list so that concrete
evaluations reduce. -/
def jsTrim (s : String) : String :=
  ⟨((s.data.dropWhile Char.isWhitespace).reverse.dropWhile Char.isWhitespace).reverse⟩

/-- JavaScript truthiness test of `convId` (`string | null`): `!convId`
is true for `null` and for the empty string. -/
def jsFalsyId : Option String → Bool
  | none => true
  | some c => c = ""

/-- JavaScript `a || b` on an optional string `a` and a string `b`:
`undefined` and `""` are falsy, so they yield `b`. -/
def jsOr : Option String → String → String
  | none, d => d
  | some e, d => if e = "" then d else e

/-- `handleNewChat` from `Home.tsx`: prepend a conversation with title
`"New Conversation"` and empty messages, and make it active.  `newId` is
`Date.now().toString()`, `ts` is `new Date().toISOString()`. -/
def handleNewChat (s : HomeState) (newId ts : String) : HomeState :=
  { s with
    conversations := ⟨newId, "New Conversation", [], ts⟩ :: s.conversations
    activeConversationId := some newId }

/-- The user message built in `handleSendMessage`. -/
def userMessage (ids : SendIds) (text : String) : Message :=
  ⟨ids.userMsgId, .user, text, ids.userMsgTs, none⟩

/-- The per-conversation update of the user-message `setConversations`
call: append the user message to the conversation with the target id and,
if that conversation had no messages yet, retitle it to the first 50
characters of the text (`messageText.slice(0, 50)`). -/
def appendUserUpdate (convId : String) (m : Message) (text : String)
    (conv : Conversation) : Conversation :=
  if conv.id = convId then
    { conv with
      messages := conv.messages ++ [m]
      title := if conv.messages.length = 0 then text.take 50 else conv.title }
  else conv

/-- The target conversation id of a send: the active conversation id, or
the freshly created conversation id when the active id is JS-falsy. -/
def sendTargetId (s : HomeState) (ids : SendIds) : String :=
  if jsFalsyId s.activeConversationId then ids.convId
  else s.activeConversationId.getD ""

/-- The guarded body of `handleSendMessage` up to the `await`: create a
conversation when none is active (title already the truncated text),
append the user message (retitling on first message), clear the input
(not modelled: local to the form), and set `isLoading` to `true`. -/
def sendBody1 (s : HomeState) (text : String) (ids : SendIds) : HomeState :=
  let s1 :=
    if jsFalsyId s.activeConversationId then
      { s with
        conversations := ⟨ids.convId, text.take 50, [], ids.convTs⟩ :: s.conversations
        activeConversationId := some ids.convId }
    else s
  let convId := sendTargetId s ids
  { s1 with
    conversations := s1.conversations.map (appendUserUpdate convId (userMessage ids text) text)
    isLoading := true }

/-- The synchronous prefix of `handleSendMessage`: the
`if (!messageText.trim() || isLoading) return` guard, then `sendBody1`. -/
def sendPhase1 (s : HomeState) (text : String) (ids : SendIds) : HomeState :=
  if jsTrim text = "" ∨ s.isLoading then s else sendBody1 s text ids

/-- The agent-side message appended after the call completes: on
`result.success && result.response.status === 'success'` the agent
message carrying the payload; on any other returned result the error
message with `result.error || 'Sorry, ...'`; on a thrown exception the
network-error message.  All three carry role `agent`. -/
def replyMessage (ids : SendIds) (o : CallOutcome) : Message :=
  match o with
  | .returned r =>
    if r.success ∧ r.response.status = "success" then
      ⟨ids.replyMsgId, .agent, r.response.result.answer, ids.replyMsgTs,
        some r.response.result⟩
    else
      ⟨ids.replyMsgId, .agent,
        jsOr r.error "Sorry, I encountered an error processing your request.",
        ids.replyMsgTs, none⟩
  | .threw =>
    ⟨ids.replyMsgId, .agent,
      "Sorry, I encountered a network error. Please try again.",
      ids.replyMsgTs, none⟩

/-- The per-conversation update of the reply-message `setConversations`
call (identical in all three branches of the source): append to the
conversation with the target id, leave every other conversation alone. -/
def appendReplyUpdate (convId : String) (m : Message)
    (conv : Conversation) : Conversation :=
  if conv.id = convId then { conv with messages := conv.messages ++ [m] } else conv

/-- The continuation of `handleSendMessage` after `await callAIAgent`:
append the reply message (success, protocol-error, or thrown branch) to
the target conversation and run the `finally setIsLoading(false)`. -/
def sendPhase2 (s : HomeState) (convId : String) (ids : SendIds)
    (o : CallOutcome) : HomeState :=
  { s with
    conversations := s.conversations.map (appendReplyUpdate convId (replyMessage ids o))
    isLoading := false }

/-- A complete run of `handleSendMessage`: guard, synchronous prefix,
awaited call with outcome `o`, continuation. -/
def handleSendMessage (s : HomeState) (text : String) (ids : SendIds)
    (o : CallOutcome) : HomeState :=
  if jsTrim text = "" ∨ s.isLoading then s
  else sendPhase2 (sendBody1 s text ids) (sendTargetId s ids) ids o

/-- The failure case of the adapter contract: the call threw, the
transport failed, or the payload status is not the literal `"success"` —
exactly the complement of the success condition tested in the source. -/
def isFailureOutcome : CallOutcome → Bool
  | .threw => true
  | .returned r => !(r.success && r.response.status == "success")

/-- `selectConversation` (the sidebar click): set the active id. -/
def selectConversation (s : HomeState) (id : String) : HomeState :=
  { s with activeConversationId := some id }

/-- Substring test modelling JavaScript `String.prototype.includes`. -/
def strIncludes (hay needle : String) : Bool :=
  (List.range (hay.data.length + 1)).any
    fun i => needle.data.isPrefixOf (hay.data.drop i)

/-- `filteredConversations` from `Home.tsx`: case-insensitive substring
filter on titles, order-preserving. -/
def filteredConversations (cs : List Conversation) (q : String) : List Conversation :=
  cs.filter fun conv => strIncludes conv.title.toLower q.toLower

/-- JSON value trees, the target of `JSON.stringify` and the result of
`JSON.parse`; numbers are `Rat`. -/
inductive Json where
  | str : String → Json
  | num : Rat → Json
  | jsonBool : Bool → Json
  | null : Json
  | arr : List Json → Json
  | obj : List (String × Json) → Json

/-- The string stored in a `role` field. -/
def Role.toStr : Role → String
  | .user => "user"
  | .agent => "agent"

/-- Reading a `role` string back. -/
def Role.fromStr : String → Option Role
  | "user" => some .user
  | "agent" => some .agent
  | _ => none

/-- `JSON.stringify` of an `AgentResult` value (tree level). -/
def AgentResult.toJson (r : AgentResult) : Json :=
  .obj [("answer", .str r.answer),
        ("sources", .arr (r.sources.map .str)),
        ("related_topics", .arr (r.related_topics.map .str)),
        ("confidence", .num r.confidence)]

/-- `JSON.stringify` of a `Message` value: the optional `response` field
is omitted when absent, as `JSON.stringify` omits `undefined` fields. -/
def Message.toJson (m : Message) : Json :=
  .obj ([("id", .str m.id), ("role", .str m.role.toStr),
         ("content", .str m.content), ("timestamp", .str m.timestamp)] ++
        (match m.response with
         | none => []
         | some r => [("response", r.toJson)]))

/-- `JSON.stringify` of a `Conversation` value. -/
def Conversation.toJson (c : Conversation) : Json :=
  .obj [("id", .str c.id), ("title", .str c.title),
        ("messages", .arr (c.messages.map Message.toJson)),
        ("timestamp", .str c.timestamp)]

/-- The save effect payload: `JSON.stringify(conversations)` written to
the key `lyzr-conversations`. -/
def persist (cs : List Conversation) : Json :=
  .arr (cs.map Conversation.toJson)

/-- Field lookup in an object tree. -/
def Json.getField : Json → String → Option Json
  | .obj fs, k => fs.lookup k
  | _, _ => none

/-- String extraction. -/
def Json.asStr : Json → Option String
  | .str s => some s
  | _ => none

/-- Number extraction. -/
def Json.asNum : Json → Option Rat
  | .num q => some q
  | _ => none

/-- Element-wise decoding of an array, failing when any element fails
(the behaviour of reading a typed array out of a parsed tree). -/
def decodeList {α : Type} (g : Json → Option α) : List Json → Option (List α)
  | [] => some []
  | j :: js => do
    let a ← g j
    let as ← decodeList g js
    pure (a :: as)

/-- String-array extraction. -/
def Json.asStrArr : Json → Option (List String)
  | .arr xs => decodeList Json.asStr xs
  | _ => none

/-- Reading an `AgentResult` back from its tree. -/
def AgentResult.fromJson (j : Json) : Option AgentResult := do
  let answer ← (← j.getField "answer").asStr
  let sources ← (← j.getField "sources").asStrArr
  let related ← (← j.getField "related_topics").asStrArr
  let confidence ← (← j.getField "confidence").asNum
  pure ⟨answer, sources, related, confidence⟩

/-- Reading a `Message` back from its tree; an absent `response` field
decodes to `none`. -/
def Message.fromJson (j : Json) : Option Message := do
  let id ← (← j.getField "id").asStr
  let role ← Role.fromStr (← (← j.getField "role").asStr)
  let content ← (← j.getField "content").asStr
  let timestamp ← (← j.getField "timestamp").asStr
  let response ←
    match j.getField "response" with
    | none => pure (Option.none (α := AgentResult))
    | some rj => (AgentResult.fromJson rj).map Option.some
  pure ⟨id, role, content, timestamp, response⟩

/-- Reading a `Conversation` back from its tree. -/
def Conversation.fromJson (j : Json) : Option Conversation := do
  let id ← (← j.getField "id").asStr
  let title ← (← j.getField "title").asStr
  let messages ←
    match j.getField "messages" with
    | some (.arr xs) => decodeList Message.fromJson xs
    | _ => none
  let timestamp ← (← j.getField "timestamp").asStr
  pure ⟨id, title, messages, timestamp⟩

/-- The startup load effect: `JSON.parse(saved)` and the structural
reading of the resulting tree back into the typed conversation list (the
source trusts the parsed value; the `try/catch` takes parse failure to
the empty store, modelled as `none`). -/
def loadFromPersistence (j : Json) : Option (List Conversation) :=
  match j with
  | .arr xs => decodeList Conversation.fromJson xs
  | _ => none

/-- The save `useEffect` on `[conversations]`: when the list is
non-empty, write `persist conversations` over the stored value; when it
is empty, leave the stored value alone. -/
def persistEffect (cs : List Conversation) (stored : Option Json) : Option Json :=
  if cs.length > 0 then some (persist cs) else stored

/-- Store state plus the value under the `lyzr-conversations` key. -/
structure SysState where
  home : HomeState
  stored : Option Json

/-- `handleNewChat` followed by the save effect re-running on the
changed `conversations`. -/
def sysNewChat (st : SysState) (newId ts : String) : SysState :=
  let h := handleNewChat st.home newId ts
  ⟨h, persistEffect h.conversations st.stored⟩

/-- A complete send followed by the save effect re-running. -/
def sysSend (st : SysState) (text : String) (ids : SendIds)
    (o : CallOutcome) : SysState :=
  let h := handleSendMessage st.home text ids o
  ⟨h, persistEffect h.conversations st.stored⟩

/-- Position shift of pre-existing conversations across a send: one when
the send creates a conversation (prepended at the front), zero
otherwise. -/
def insertOffset (s : HomeState) (text : String) : Nat :=
  if jsTrim text = "" ∨ s.isLoading then 0
  else if jsFalsyId s.activeConversationId then 1 else 0

/-- A sample success payload used by the witness theorems. -/
def sampleResult : AgentResult :=
  ⟨"ans", ["https://docs.example"], ["topic"], (9 : Rat) / 10⟩

/-- Sample metadata. -/
def sampleMeta : AgentMetadata := ⟨"support", "t"⟩

/-- A transport-success, protocol-success adapter result. -/
def sampleOk : CallAgentResult := ⟨true, ⟨"success", sampleResult, sampleMeta⟩, none⟩

/-- A transport-success, protocol-error adapter result. -/
def sampleErr : CallAgentResult := ⟨true, ⟨"error", sampleResult, sampleMeta⟩, some "boom"⟩

/-- A conversation with no messages. -/
def sampleConv : Conversation := ⟨"c1", "T", [], "t0"⟩

/-- A second conversation, distinct id. -/
def sampleConv2 : Conversation := ⟨"c2", "U", [], "t0"⟩

/-- A store with one conversation, active, not loading. -/
def sampleState : HomeState := ⟨[sampleConv], some "c1", false⟩

/-- A store with two conversations, the first active. -/
def sampleState2 : HomeState := ⟨[sampleConv, sampleConv2], some "c1", false⟩

/-- Clock values for one send. -/
def sampleIds : SendIds := ⟨"100", "t1", "101", "t2", "102", "t3"⟩

/-- The empty store at startup. -/
def emptyHome : HomeState := ⟨[], none, false⟩

/-! ## Helper lemmas -/

theorem appendUserUpdate_id (convId : String) (m : Message) (text : String)
    (c : Conversation) : (appendUserUpdate convId m text c).id = c.id := by
  unfold appendUserUpdate
  split <;> rfl

theorem appendReplyUpdate_id (convId : String) (m : Message)
    (c : Conversation) : (appendReplyUpdate convId m c).id = c.id := by
  unfold appendReplyUpdate
  split <;> rfl

theorem appendReplyUpdate_title (convId : String) (m : Message)
    (c : Conversation) : (appendReplyUpdate convId m c).title = c.title := by
  unfold appendReplyUpdate
  split <;> rfl

theorem replyMessage_role (ids : SendIds) (o : CallOutcome) :
    (replyMessage ids o).role = .agent := by
  cases o with
  | threw => rfl
  | returned r =>
    by_cases h : r.success = true ∧ r.response.status = "success" <;>
      simp [replyMessage, h]

theorem jsOr_ne_empty (e : Option String) (d : String) (hd : d ≠ "") :
    jsOr e d ≠ "" := by
  cases e with
  | none => simpa [jsOr] using hd
  | some x =>
    by_cases hx : x = "" <;> simp [jsOr, hx, hd]

/-- Round-trip of an element-wise faithful encode/decode pair. -/
theorem decodeList_roundtrip {α : Type} (f : α → Json) (g : Json → Option α)
    (h : ∀ a, g (f a) = some a) (xs : List α) :
    decodeList g (xs.map f) = some xs := by
  induction xs with
  | nil => rfl
  | cons x xs ih => simp [decodeList, h, ih]

theorem agentResult_roundtrip (r : AgentResult) :
    AgentResult.fromJson r.toJson = some r := by
  obtain ⟨a, srcs, rel, conf⟩ := r
  simp [AgentResult.toJson, AgentResult.fromJson, Json.getField, Json.asStr,
        Json.asNum, Json.asStrArr, List.lookup,
        decodeList_roundtrip Json.str Json.asStr (fun _ => rfl)]

theorem role_roundtrip (r : Role) : Role.fromStr r.toStr = some r := by
  cases r <;> rfl

theorem message_roundtrip (m : Message) :
    Message.fromJson m.toJson = some m := by
  obtain ⟨id, role, content, ts, resp⟩ := m
  cases resp <;>
    simp [Message.toJson, Message.fromJson, Json.getField, Json.asStr,
          List.lookup, role_roundtrip, agentResult_roundtrip]

theorem conversation_roundtrip (c : Conversation) :
    Conversation.fromJson c.toJson = some c := by
  obtain ⟨id, title, msgs, ts⟩ := c
  simp [Conversation.toJson, Conversation.fromJson, Json.getField, Json.asStr,
        List.lookup, decodeList_roundtrip Message.toJson Message.fromJson message_roundtrip]

/-- Serialize-then-deserialize is the identity on conversation lists. -/
theorem persist_roundtrip (cs : List Conversation) :
    loadFromPersistence (persist cs) = some cs := by
  simp [persist, loadFromPersistence,
        decodeList_roundtrip Conversation.toJson Conversation.fromJson conversation_roundtrip]

/-- Positional view of a mapped list. -/
theorem get_map_at {α β : Type} (f : α → β) (xs : List α)
    (i : Nat) (hi : i < xs.length) (h : i < (xs.map f).length) :
    (xs.map f).get ⟨i, h⟩ = f (xs.get ⟨i, hi⟩) := by
  simp [List.get_eq_getElem, List.getElem_map]

theorem replyMessage_failure (ids : SendIds) (o : CallOutcome)
    (hf : isFailureOutcome o = true) :
    (replyMessage ids o).response = none ∧ (replyMessage ids o).content ≠ "" := by
  cases o with
  | threw =>
    refine ⟨rfl, ?_⟩
    simp [replyMessage]
  | returned r =>
    have hcond : ¬(r.success = true ∧ r.response.status = "success") := by
      intro hc
      simp [isFailureOutcome, hc.1, hc.2] at hf
    have hform : replyMessage ids (.returned r)
        = ⟨ids.replyMsgId, .agent,
           jsOr r.error "Sorry, I encountered an error processing your request.",
           ids.replyMsgTs, none⟩ := by
      simp [replyMessage, hcond]
    rw [hform]
    exact ⟨rfl, jsOr_ne_empty _ _ (by decide)⟩

/-! ## Claim theorems -/

/-- C1: when the agent call returns transport success with payload status
`"success"`, the continuation appends exactly one message to the target
conversation; it has role `agent`, its content is the payload answer, and
its attached response is the success payload verbatim. -/
theorem agent_success_appends_payload (s : HomeState) (convId : String)
    (ids : SendIds) (r : CallAgentResult)
    (hs : r.success = true) (hst : r.response.status = "success")
    (i : Nat) (hi : i < s.conversations.length)
    (hid : (s.conversations.get ⟨i, hi⟩).id = convId) :
    ∃ h : i < (sendPhase2 s convId ids (.returned r)).conversations.length,
      ((sendPhase2 s convId ids (.returned r)).conversations.get ⟨i, h⟩).messages
        = (s.conversations.get ⟨i, hi⟩).messages
          ++ [⟨ids.replyMsgId, .agent, r.response.result.answer, ids.replyMsgTs,
               some r.response.result⟩] := by
  have hlen : i < (sendPhase2 s convId ids (.returned r)).conversations.length := by
    simpa [sendPhase2] using hi
  refine ⟨hlen, ?_⟩
  have hid' : s.conversations[i].id = convId := by
    simpa [List.get_eq_getElem] using hid
  simp [sendPhase2, List.get_eq_getElem, List.getElem_map, appendReplyUpdate, hid',
        replyMessage, hs, hst]

/-- Witness for C1 at a one-conversation store and a concrete payload. -/
theorem agent_success_appends_payload_witness :
    ∃ h : 0 < (sendPhase2 sampleState "c1" sampleIds (.returned sampleOk)).conversations.length,
      ((sendPhase2 sampleState "c1" sampleIds (.returned sampleOk)).conversations.get ⟨0, h⟩).messages
        = (sampleState.conversations.get ⟨0, Nat.zero_lt_one⟩).messages
          ++ [⟨sampleIds.replyMsgId, .agent, sampleOk.response.result.answer,
               sampleIds.replyMsgTs, some sampleOk.response.result⟩] :=
  agent_success_appends_payload sampleState "c1" sampleIds sampleOk rfl rfl 0
    Nat.zero_lt_one rfl

/-- C2: on any failure outcome (thrown exception, transport failure, or
payload status other than `"success"`), the continuation appends exactly
one message to the target conversation; it has role `agent`, no attached
structured response, and non-empty content (the server error text when
present and non-empty, a fixed fallback otherwise). -/
theorem agent_failure_appends_error (s : HomeState) (convId : String)
    (ids : SendIds) (o : CallOutcome) (hf : isFailureOutcome o = true)
    (i : Nat) (hi : i < s.conversations.length)
    (hid : (s.conversations.get ⟨i, hi⟩).id = convId) :
    ∃ h : i < (sendPhase2 s convId ids o).conversations.length,
      ((sendPhase2 s convId ids o).conversations.get ⟨i, h⟩).messages
        = (s.conversations.get ⟨i, hi⟩).messages ++ [replyMessage ids o]
      ∧ (replyMessage ids o).role = .agent
      ∧ (replyMessage ids o).response = none
      ∧ (replyMessage ids o).content ≠ "" := by
  have hlen : i < (sendPhase2 s convId ids o).conversations.length := by
    simpa [sendPhase2] using hi
  refine ⟨hlen, ?_, replyMessage_role ids o, (replyMessage_failure ids o hf).1,
          (replyMessage_failure ids o hf).2⟩
  have hid' : s.conversations[i].id = convId := by
    simpa [List.get_eq_getElem] using hid
  simp [sendPhase2, List.get_eq_getElem, List.getElem_map, appendReplyUpdate, hid']

/-- Witness for C2 at a protocol-error payload. -/
theorem agent_failure_appends_error_witness :
    ∃ h : 0 < (sendPhase2 sampleState "c1" sampleIds (.returned sampleErr)).conversations.length,
      ((sendPhase2 sampleState "c1" sampleIds (.returned sampleErr)).conversations.get ⟨0, h⟩).messages
        = (sampleState.conversations.get ⟨0, Nat.zero_lt_one⟩).messages
          ++ [replyMessage sampleIds (.returned sampleErr)]
      ∧ (replyMessage sampleIds (.returned sampleErr)).role = .agent
      ∧ (replyMessage sampleIds (.returned sampleErr)).response = none
      ∧ (replyMessage sampleIds (.returned sampleErr)).content ≠ "" :=
  agent_failure_appends_error sampleState "c1" sampleIds (.returned sampleErr)
    (by decide) 0 Nat.zero_lt_one rfl

/-- C4: an empty or whitespace-only text, or a send issued while the
loading flag is set, is a silent no-op: the state is unchanged by both
the full send and its synchronous prefix. -/
theorem send_noop_empty_or_loading (s : HomeState) (text : String)
    (ids : SendIds) (o : CallOutcome)
    (h : jsTrim text = "" ∨ s.isLoading = true) :
    handleSendMessage s text ids o = s ∧ sendPhase1 s text ids = s := by
  rcases h with h | h <;> constructor <;> simp [handleSendMessage, sendPhase1, h]

/-- Witness for C4 on whitespace-only input. -/
theorem send_noop_empty_or_loading_witness :
    handleSendMessage sampleState "   " sampleIds .threw = sampleState
    ∧ sendPhase1 sampleState "   " sampleIds = sampleState :=
  send_noop_empty_or_loading sampleState "   " sampleIds .threw (Or.inl (by decide))

/-- C7: serializing the conversation list and deserializing it
reproduces the original list: same ids, order, and message contents. -/
theorem persist_load_roundtrip (cs : List Conversation) :
    loadFromPersistence (persist cs) = some cs :=
  persist_roundtrip cs

/-- C8: the save effect runs after each mutation that adds data and
writes the full conversation list; it is skipped when the in-memory list
is empty, so an empty list never overwrites the stored value. -/
theorem persist_after_mutations (st : SysState) (newId ts text : String)
    (ids : SendIds) (o : CallOutcome) :
    (sysNewChat st newId ts).stored
      = some (persist (sysNewChat st newId ts).home.conversations)
    ∧ ((sysSend st text ids o).home.conversations ≠ [] →
        (sysSend st text ids o).stored
          = some (persist (sysSend st text ids o).home.conversations))
    ∧ ∀ stored : Option Json, persistEffect [] stored = stored := by
  refine ⟨?_, ?_, fun stored => rfl⟩
  · simp [sysNewChat, handleNewChat, persistEffect]
  · intro hne
    have hpos : 0 < (handleSendMessage st.home text ids o).conversations.length := by
      simpa [sysSend] using List.length_pos.mpr hne
    simp [sysSend, persistEffect, hpos]

/-- Witness for C8: a send against a non-empty store writes the full
list. -/
theorem persist_after_mutations_witness :
    (sysSend ⟨sampleState, none⟩ "hi" sampleIds .threw).stored
      = some (persist (sysSend ⟨sampleState, none⟩ "hi" sampleIds .threw).home.conversations) :=
  (persist_after_mutations ⟨sampleState, none⟩ "n" "t" "hi" sampleIds .threw).2.1
    (by decide)

theorem map_id_userUpdate (convId : String) (m : Message) (text : String)
    (cs : List Conversation) :
    (cs.map (appendUserUpdate convId m text)).map Conversation.id
      = cs.map Conversation.id := by
  rw [List.map_map]
  exact List.map_congr_left fun c _ => appendUserUpdate_id convId m text c

/-- Shape of a full send against an existing active conversation: the
conversation at each position is the old one passed through the
user-append update and then the reply-append update. -/
theorem handleSend_active_get (s : HomeState) (text : String) (ids : SendIds)
    (o : CallOutcome) (cid : String)
    (hg : ¬(jsTrim text = "" ∨ s.isLoading = true))
    (ha : s.activeConversationId = some cid) (hcid : cid ≠ "")
    (i : Nat) (hi : i < s.conversations.length) :
    ∃ h : i < (handleSendMessage s text ids o).conversations.length,
      (handleSendMessage s text ids o).conversations.get ⟨i, h⟩
        = appendReplyUpdate cid (replyMessage ids o)
            (appendUserUpdate cid (userMessage ids text) text
              (s.conversations.get ⟨i, hi⟩)) := by
  have hfa : jsFalsyId (some cid) = false := by
    simp [jsFalsyId, hcid]
  have htarget : sendTargetId s ids = cid := by
    simp [sendTargetId, ha, hfa]
  have hlen : i < (handleSendMessage s text ids o).conversations.length := by
    simpa [handleSendMessage, hg, sendPhase2, sendBody1, ha, hfa] using hi
  refine ⟨hlen, ?_⟩
  simp [handleSendMessage, hg, sendPhase2, sendBody1, ha, hfa, htarget,
        List.get_eq_getElem, List.getElem_map]

/-- Shape of a full send that creates the conversation: the new
conversation is at the front, titled with the truncated text, holding the
user message and then the reply message. -/
theorem handleSend_create_head (s : HomeState) (text : String) (ids : SendIds)
    (o : CallOutcome)
    (hg : ¬(jsTrim text = "" ∨ s.isLoading = true))
    (ha : s.activeConversationId = none) :
    (handleSendMessage s text ids o).conversations.head?
      = some ⟨ids.convId, text.take 50,
              [userMessage ids text, replyMessage ids o], ids.convTs⟩ := by
  simp [handleSendMessage, hg, sendPhase2, sendBody1, sendTargetId, ha, jsFalsyId,
        appendUserUpdate, appendReplyUpdate, userMessage]

/-- C3: sending non-blank text with no active conversation creates
exactly one new conversation: it is prepended, titled with the text
truncated to 50 characters, made active, and after the synchronous
prefix it holds the user message as its only message. -/
theorem first_send_creates_conversation (s : HomeState) (text : String)
    (ids : SendIds) (ht : jsTrim text ≠ "") (hl : s.isLoading = false)
    (ha : s.activeConversationId = none) :
    (sendPhase1 s text ids).conversations.length = s.conversations.length + 1
    ∧ (sendPhase1 s text ids).conversations.head?
        = some ⟨ids.convId, text.take 50, [userMessage ids text], ids.convTs⟩
    ∧ (sendPhase1 s text ids).activeConversationId = some ids.convId := by
  have hg : ¬(jsTrim text = "" ∨ s.isLoading = true) := by
    simp [ht, hl]
  refine ⟨?_, ?_, ?_⟩ <;>
    simp [sendPhase1, hg, sendBody1, sendTargetId, ha, jsFalsyId,
          appendUserUpdate, userMessage]

/-- Witness for C3 from the empty store. -/
theorem first_send_creates_conversation_witness :
    (sendPhase1 emptyHome "hello" sampleIds).conversations.length
        = emptyHome.conversations.length + 1
    ∧ (sendPhase1 emptyHome "hello" sampleIds).conversations.head?
        = some ⟨sampleIds.convId, "hello".take 50,
                [userMessage sampleIds "hello"], sampleIds.convTs⟩
    ∧ (sendPhase1 emptyHome "hello" sampleIds).activeConversationId
        = some sampleIds.convId :=
  first_send_creates_conversation emptyHome "hello" sampleIds (by decide) rfl rfl

/-- C5 counterexample: the id generator is the millisecond clock, which
the code does not guarantee to move between creations; two new-chat
actions with the same `Date.now()` value yield two conversations with
the same id, refuting unconditional uniqueness. -/
theorem conversation_id_collision :
    ((handleNewChat (handleNewChat emptyHome "100" "t0") "100" "t1").conversations.map
        Conversation.id) = ["100", "100"]
    ∧ ¬ ((handleNewChat (handleNewChat emptyHome "100" "t0") "100" "t1").conversations.map
        Conversation.id).Nodup := by
  refine ⟨rfl, ?_⟩
  decide

/-- C5 amended: both explicit creation and the implicit creation on
first send preserve id uniqueness provided the generated clock id is not
already present in the list (the clock strictly increased since the last
creation). -/
theorem fresh_id_preserves_uniqueness (s : HomeState) (newId ts text : String)
    (ids : SendIds)
    (hnd : (s.conversations.map Conversation.id).Nodup)
    (h1 : newId ∉ s.conversations.map Conversation.id)
    (h2 : ids.convId ∉ s.conversations.map Conversation.id) :
    ((handleNewChat s newId ts).conversations.map Conversation.id).Nodup
    ∧ ((sendPhase1 s text ids).conversations.map Conversation.id).Nodup := by
  constructor
  · have hids : (handleNewChat s newId ts).conversations.map Conversation.id
        = newId :: s.conversations.map Conversation.id := rfl
    rw [hids, List.nodup_cons]
    exact ⟨h1, hnd⟩
  · by_cases hg : jsTrim text = "" ∨ s.isLoading = true
    · simpa [sendPhase1, hg] using hnd
    · by_cases hfa : jsFalsyId s.activeConversationId = true
      · have hshape : (sendPhase1 s text ids).conversations
            = (⟨ids.convId, text.take 50, [], ids.convTs⟩ :: s.conversations).map
                (appendUserUpdate (sendTargetId s ids) (userMessage ids text) text) := by
          simp [sendPhase1, hg, sendBody1, hfa]
        rw [hshape, map_id_userUpdate]
        have hids : (Conversation.mk ids.convId (text.take 50) [] ids.convTs
              :: s.conversations).map Conversation.id
            = ids.convId :: s.conversations.map Conversation.id := rfl
        rw [hids, List.nodup_cons]
        exact ⟨h2, hnd⟩
      · simp only [Bool.not_eq_true] at hfa
        have hshape : (sendPhase1 s text ids).conversations
            = s.conversations.map
                (appendUserUpdate (sendTargetId s ids) (userMessage ids text) text) := by
          simp [sendPhase1, hg, sendBody1, hfa]
        rw [hshape, map_id_userUpdate]
        exact hnd

/-- Witness for C5 (amended) at a store holding one conversation. -/
theorem fresh_id_preserves_uniqueness_witness :
    ((handleNewChat sampleState "n1" "t").conversations.map Conversation.id).Nodup
    ∧ ((sendPhase1 sampleState "hello" sampleIds).conversations.map Conversation.id).Nodup :=
  fresh_id_preserves_uniqueness sampleState "n1" "t" "hello" sampleIds
    (by decide) (by decide) (by decide)

/-- C6: the truncated text is assigned as title exactly at a
conversation's first user message, and nothing else touches titles: the
same send leaves the title of a conversation that already has messages
unchanged (and the reply append never retitles), selection leaves the
conversation list untouched, filtering returns conversations unchanged,
and the persistence round trip reproduces them. -/
theorem title_set_once (s : HomeState) (text : String) (ids : SendIds)
    (o : CallOutcome) (cid : String)
    (ha : s.activeConversationId = some cid) (hcid : cid ≠ "")
    (i : Nat) (hi : i < s.conversations.length) :
    (∃ h : i < (handleSendMessage s text ids o).conversations.length,
      ((handleSendMessage s text ids o).conversations.get ⟨i, h⟩).title
        = if (s.conversations.get ⟨i, hi⟩).id = cid
             ∧ (s.conversations.get ⟨i, hi⟩).messages = []
             ∧ ¬(jsTrim text = "" ∨ s.isLoading = true)
          then text.take 50 else (s.conversations.get ⟨i, hi⟩).title)
    ∧ (∀ (s₂ : HomeState) (id₂ : String),
        (selectConversation s₂ id₂).conversations = s₂.conversations)
    ∧ (∀ (cs : List Conversation) (q : String),
        ∀ c ∈ filteredConversations cs q, c ∈ cs)
    ∧ (∀ cs : List Conversation, loadFromPersistence (persist cs) = some cs) := by
  refine ⟨?_, fun s₂ id₂ => rfl, fun cs q c hc => List.mem_of_mem_filter hc,
          fun cs => persist_roundtrip cs⟩
  by_cases hg : jsTrim text = "" ∨ s.isLoading = true
  · have hs : handleSendMessage s text ids o = s := by
      simp [handleSendMessage, hg]
    refine ⟨by simpa [hs] using hi, ?_⟩
    simp [hs, hg]
  · obtain ⟨h, hget⟩ := handleSend_active_get s text ids o cid hg ha hcid i hi
    refine ⟨h, ?_⟩
    rw [hget, appendReplyUpdate_title]
    by_cases hc : s.conversations[i].id = cid <;>
      by_cases hm : s.conversations[i].messages = [] <;>
        simp [appendUserUpdate, hc, hm, hg, List.length_eq_zero, List.get_eq_getElem]

/-- Witness for C6: sending to the active empty conversation of a
two-conversation store. -/
theorem title_set_once_witness :
    (∃ h : 0 < (handleSendMessage sampleState2 "hello" sampleIds .threw).conversations.length,
      ((handleSendMessage sampleState2 "hello" sampleIds .threw).conversations.get ⟨0, h⟩).title
        = if (sampleState2.conversations.get ⟨0, by decide⟩).id = "c1"
             ∧ (sampleState2.conversations.get ⟨0, by decide⟩).messages = []
             ∧ ¬(jsTrim "hello" = "" ∨ sampleState2.isLoading = true)
          then "hello".take 50 else (sampleState2.conversations.get ⟨0, by decide⟩).title)
    ∧ (∀ (s₂ : HomeState) (id₂ : String),
        (selectConversation s₂ id₂).conversations = s₂.conversations)
    ∧ (∀ (cs : List Conversation) (q : String),
        ∀ c ∈ filteredConversations cs q, c ∈ cs)
    ∧ (∀ cs : List Conversation, loadFromPersistence (persist cs) = some cs) :=
  title_set_once sampleState2 "hello" sampleIds .threw "c1" rfl (by decide) 0 (by decide)

/-- C9: the synchronous prefix appends the user message and only then is
the call issued, whose reply lands strictly after the user message in the
same conversation; the prefix raises the loading flag, and the prefix of
any send started while the flag is set is a no-op, so at most one call is
outstanding. -/
theorem user_precedes_reply_single_flight (s : HomeState) (text : String)
    (ids : SendIds) (o : CallOutcome)
    (hg : ¬(jsTrim text = "" ∨ s.isLoading = true)) :
    (∀ cid, s.activeConversationId = some cid → cid ≠ "" →
      ∀ i, ∀ hi : i < s.conversations.length,
        (s.conversations.get ⟨i, hi⟩).id = cid →
        ∃ h : i < (handleSendMessage s text ids o).conversations.length,
          ((handleSendMessage s text ids o).conversations.get ⟨i, h⟩).messages
            = (s.conversations.get ⟨i, hi⟩).messages
              ++ [userMessage ids text, replyMessage ids o])
    ∧ (s.activeConversationId = none →
        (handleSendMessage s text ids o).conversations.head?
          = some ⟨ids.convId, text.take 50,
                  [userMessage ids text, replyMessage ids o], ids.convTs⟩)
    ∧ (userMessage ids text).role = .user
    ∧ (replyMessage ids o).role = .agent
    ∧ (sendBody1 s text ids).isLoading = true
    ∧ ∀ (s₂ : HomeState) (t₂ : String) (ids₂ : SendIds),
        s₂.isLoading = true → sendPhase1 s₂ t₂ ids₂ = s₂ := by
  refine ⟨?_, handleSend_create_head s text ids o hg, rfl, replyMessage_role ids o,
          rfl, fun s₂ t₂ ids₂ hl => by simp [sendPhase1, hl]⟩
  intro cid ha hcid i hi hid
  obtain ⟨h, hget⟩ := handleSend_active_get s text ids o cid hg ha hcid i hi
  refine ⟨h, ?_⟩
  have hid' : s.conversations[i].id = cid := by simpa using hid
  rw [hget]
  simp [appendReplyUpdate, appendUserUpdate, hid', List.get_eq_getElem]

/-- Witness for C9 at a one-conversation store and a success payload. -/
theorem user_precedes_reply_single_flight_witness :
    (∀ cid, sampleState.activeConversationId = some cid → cid ≠ "" →
      ∀ i, ∀ hi : i < sampleState.conversations.length,
        (sampleState.conversations.get ⟨i, hi⟩).id = cid →
        ∃ h : i < (handleSendMessage sampleState "hello" sampleIds
            (.returned sampleOk)).conversations.length,
          ((handleSendMessage sampleState "hello" sampleIds
              (.returned sampleOk)).conversations.get ⟨i, h⟩).messages
            = (sampleState.conversations.get ⟨i, hi⟩).messages
              ++ [userMessage sampleIds "hello",
                  replyMessage sampleIds (.returned sampleOk)])
    ∧ (sampleState.activeConversationId = none →
        (handleSendMessage sampleState "hello" sampleIds
            (.returned sampleOk)).conversations.head?
          = some ⟨sampleIds.convId, "hello".take 50,
                  [userMessage sampleIds "hello",
                   replyMessage sampleIds (.returned sampleOk)], sampleIds.convTs⟩)
    ∧ (userMessage sampleIds "hello").role = .user
    ∧ (replyMessage sampleIds (.returned sampleOk)).role = .agent
    ∧ (sendBody1 sampleState "hello" sampleIds).isLoading = true
    ∧ ∀ (s₂ : HomeState) (t₂ : String) (ids₂ : SendIds),
        s₂.isLoading = true → sendPhase1 s₂ t₂ ids₂ = s₂ :=
  user_precedes_reply_single_flight sampleState "hello" sampleIds
    (.returned sampleOk) (by decide)

/-- C10: a send touches only the target conversation: every conversation
whose id differs from the target id is found unchanged (same id, title,
messages, timestamp) at its old position shifted by the insertion
offset. -/
theorem send_frame_other_conversations (s : HomeState) (text : String)
    (ids : SendIds) (o : CallOutcome)
    (i : Nat) (hi : i < s.conversations.length)
    (hne : (s.conversations.get ⟨i, hi⟩).id ≠ sendTargetId s ids) :
    ∃ h : i + insertOffset s text
        < (handleSendMessage s text ids o).conversations.length,
      (handleSendMessage s text ids o).conversations.get
          ⟨i + insertOffset s text, h⟩
        = s.conversations.get ⟨i, hi⟩ := by
  have hne' : ¬ (s.conversations[i].id = sendTargetId s ids) := by
    simpa [List.get_eq_getElem] using hne
  by_cases hg : jsTrim text = "" ∨ s.isLoading = true
  · have h0 : insertOffset s text = 0 := by simp [insertOffset, hg]
    have hs : handleSendMessage s text ids o = s := by
      simp [handleSendMessage, hg]
    refine ⟨by simpa [h0, hs] using hi, ?_⟩
    simp [h0, hs]
  · by_cases hfa : jsFalsyId s.activeConversationId = true
    · have hoff : insertOffset s text = 1 := by simp [insertOffset, hg, hfa]
      have hlen : i + 1 < (handleSendMessage s text ids o).conversations.length := by
        simp only [handleSendMessage, if_neg hg, sendPhase2, sendBody1, hfa,
          if_true, List.length_map, List.length_cons]
        omega
      refine ⟨by simpa [hoff] using hlen, ?_⟩
      simp [handleSendMessage, hg, sendPhase2, sendBody1, hfa, hoff,
            List.get_eq_getElem, List.getElem_map, appendUserUpdate,
            appendReplyUpdate, hne']
    · simp only [Bool.not_eq_true] at hfa
      have hoff : insertOffset s text = 0 := by simp [insertOffset, hg, hfa]
      have hlen : i < (handleSendMessage s text ids o).conversations.length := by
        simpa [handleSendMessage, hg, sendPhase2, sendBody1, hfa] using hi
      refine ⟨by simpa [hoff] using hlen, ?_⟩
      simp [handleSendMessage, hg, sendPhase2, sendBody1, hfa, hoff,
            List.get_eq_getElem, List.getElem_map, appendUserUpdate,
            appendReplyUpdate, hne']

/-- Witness for C10: the second conversation of a two-conversation store
is untouched by a send targeting the first. -/
theorem send_frame_other_conversations_witness :
    ∃ h : 1 + insertOffset sampleState2 "hello"
        < (handleSendMessage sampleState2 "hello" sampleIds .threw).conversations.length,
      (handleSendMessage sampleState2 "hello" sampleIds .threw).conversations.get
          ⟨1 + insertOffset sampleState2 "hello", h⟩
        = sampleState2.conversations.get ⟨1, by decide⟩ :=
  send_frame_other_conversations sampleState2 "hello" sampleIds .threw 1
    (by decide) (by decide)
